import Mathlib

/-!
Verification of the Iran League Predictor Telegram bot's core logic.

The definitions below are a shallow embedding of the program's pure core:
the score validator and the scoring engine (`bot.py`), the week cache, the
conversation-entry match lookups, the admin result-entry queries, the
re-scoring sweep, and the persistence-level week accessor (`database.py`).

Python strings are modelled as Lean `String`/`List Char`; `str.strip`,
`str.isdigit`, `str.split` and `int()` are modelled over ASCII text
(decimal digits, an optional leading sign for `int()`, and the usual
whitespace characters), which covers every value the program itself
constructs or stores.
-/

/-! ### Configuration constants (`config.py`) -/

def MAX_SCORE_LENGTH : Nat := 7

def POINTS_FOR_EXACT_SCORE : Int := 5

def POINTS_FOR_CORRECT_WINNER : Int := 3

def POINTS_FOR_PARTIAL_SCORE : Int := 1

/-- The distinguished draw label used by the bot (the Persian word for "draw"). -/
def drawMarker : String := "مساوی"

/-! ### Python string primitives -/

/-- `str.strip()`: drop leading and trailing whitespace. -/
def pyStrip (l : List Char) : List Char :=
  ((l.dropWhile Char.isWhitespace).reverse.dropWhile Char.isWhitespace).reverse

/-- `str.isdigit()`: non-empty and all decimal digits. -/
def isdigitChars (l : List Char) : Bool :=
  !l.isEmpty && l.all Char.isDigit

/-- Numeric value of a decimal digit string. -/
def digitsToNat (l : List Char) : Nat :=
  l.foldl (fun n c => n * 10 + (c.toNat - 48)) 0

/-- Parse an unsigned decimal digit string, `none` when not all digits. -/
def parseDigits (l : List Char) : Option Nat :=
  if isdigitChars l then some (digitsToNat l) else none

/-- Python `int(s)`: strip whitespace, allow one optional leading sign,
then require a decimal digit string; `none` models `ValueError`. -/
def pyIntChars (l : List Char) : Option Int :=
  match pyStrip l with
  | [] => none
  | c :: cs =>
    if c = '-' then (parseDigits cs).map (fun n => -(n : Int))
    else if c = '+' then (parseDigits cs).map (fun n => (n : Int))
    else (parseDigits (c :: cs)).map (fun n => (n : Int))

/-- Python `str.split(sep)` for a one-character separator:
always returns at least one (possibly empty) part. -/
def splitOnChar (sep : Char) : List Char → List (List Char)
  | [] => [[]]
  | c :: cs =>
    if c = sep then [] :: splitOnChar sep cs
    else (c :: (splitOnChar sep cs).headD []) :: (splitOnChar sep cs).tail

/-! ### Validator (`BotHandlers.validate_score`, bot.py lines 27-48) -/

/-- `BotHandlers.validate_score`: length cap, `-` must occur, the split must
unpack into exactly two parts, both parts must be digit strings after
stripping, both values in `[0, 20]`.  Any unpack/parse failure is the
`except` branch returning `False` (the wildcard match arms). -/
def validate_score (score : String) : Bool :=
  if score.length > MAX_SCORE_LENGTH then false
  else if '-' ∉ score.data then false
  else
    match splitOnChar '-' score.data with
    | [home, away] =>
      if !(isdigitChars (pyStrip home)) || !(isdigitChars (pyStrip away)) then false
      else
        match pyIntChars home, pyIntChars away with
        | some home_int, some away_int =>
          if home_int < 0 ∨ away_int < 0 then false
          else if home_int > 20 ∨ away_int > 20 then false
          else true
        | _, _ => false
    | _ => false

/-! ### Scoring engine (`PredictionSystem.calculate_points`, bot.py lines 814-847) -/

/-- `map(int, s.split('-'))` unpacked into exactly two values;
`none` models the `ValueError` caught by `calculate_points`. -/
def parseScorePair (s : String) : Option (Int × Int) :=
  match splitOnChar '-' s.data with
  | [a, b] =>
    match pyIntChars a, pyIntChars b with
    | some x, some y => some (x, y)
    | _, _ => none
  | _ => none

/-- `PredictionSystem.calculate_points`: empty-input guard, exact string
match, then derive the actual winner and compare, then the partial
goal-count rule; a parse failure falls through to `return 0`. -/
def calculate_points (predicted_score predicted_winner actual_score
    home_team away_team : String) : Int :=
  if predicted_score = "" ∨ predicted_winner = "" ∨ actual_score = "" ∨
      home_team = "" ∨ away_team = "" then 0
  else if predicted_score = actual_score then POINTS_FOR_EXACT_SCORE
  else
    match parseScorePair predicted_score, parseScorePair actual_score with
    | some (pred_home, pred_away), some (actual_home, actual_away) =>
      let actual_winner :=
        if actual_home = actual_away then drawMarker
        else if actual_home > actual_away then home_team else away_team
      if predicted_winner = actual_winner then POINTS_FOR_CORRECT_WINNER
      else if pred_home = actual_home ∨ pred_away = actual_away then POINTS_FOR_PARTIAL_SCORE
      else 0
    | _, _ => 0

/-! ### Data model (tables created in `DatabaseManager.initialize_database`) -/

/-- A row of the `matches` table (id, week, teams, optional result). -/
structure MatchRow where
  id : Nat
  week : Nat
  home_team : String
  away_team : String
  result : Option String
deriving DecidableEq

/-- A row of the `predictions` table. -/
structure PredictionRow where
  user_id : Nat
  match_id : Nat
  week : Nat
  home_team : String
  away_team : String
  score : String
  winner : String
  points : Option Int
deriving DecidableEq

/-! ### Prediction-flow entry (`get_next_match`, `_handle_no_matches`) -/

/-- The rows selected by `get_next_match`'s SQL: matches of the week with no
prediction row by this user (`id NOT IN (SELECT match_id FROM predictions
WHERE user_id=?)`). -/
def unpredictedMatches (ms : List MatchRow) (ps : List PredictionRow)
    (week user : Nat) : List MatchRow :=
  ms.filter (fun m =>
    m.week == week && !(ps.any (fun p => p.user_id == user && p.match_id == m.id)))

/-- `ORDER BY m.id LIMIT 1`: the row with the smallest id. -/
def minById (m : MatchRow) (rest : List MatchRow) : MatchRow :=
  rest.foldl (fun best x => if x.id < best.id then x else best) m

/-- `BotHandlers.get_next_match` (bot.py lines 77-96). -/
def get_next_match (ms : List MatchRow) (ps : List PredictionRow)
    (week user : Nat) : Option MatchRow :=
  match unpredictedMatches ms ps week user with
  | [] => none
  | m :: rest => some (minById m rest)

/-- The `COUNT(*)` re-computed by `_handle_no_matches`. -/
def remainingCount (ms : List MatchRow) (ps : List PredictionRow)
    (week user : Nat) : Nat :=
  (unpredictedMatches ms ps week user).length

/-- The two replies `_handle_no_matches` can send. -/
inductive NoMatchesReply where
  | allPredicted (week : Nat)
  | lookupError (week : Nat)
deriving DecidableEq

/-- `BotHandlers._handle_no_matches` (bot.py lines 124-153): congratulate
when the recount is zero, otherwise a generic contact-support error. -/
def handle_no_matches (ms : List MatchRow) (ps : List PredictionRow)
    (week user : Nat) : NoMatchesReply :=
  if remainingCount ms ps week user = 0 then .allPredicted week
  else .lookupError week

/-! ### Winner prompts (`prompt_for_winner`, `set_result_prompt_winner`) -/

/-- Button labels built by `BotHandlers.prompt_for_winner` (bot.py lines
305-333): `[home, away]`, with the draw label inserted at index 1 when the
parsed score is a draw; `none` models the caught parse exception. -/
def prompt_for_winner_choices (score home away : String) : Option (List String) :=
  match parseScorePair score with
  | some (home_goals, away_goals) =>
    some (if home_goals = away_goals then [home, drawMarker, away] else [home, away])
  | none => none

/-- Button labels built by `BotHandlers.set_result_prompt_winner` (bot.py
lines 538-567), identical construction to the prediction-flow prompt. -/
def set_result_prompt_winner_choices (score home away : String) :
    Option (List String) :=
  match parseScorePair score with
  | some (home_goals, away_goals) =>
    some (if home_goals = away_goals then [home, drawMarker, away] else [home, away])
  | none => none

/-! ### Admin result entry (`set_result_start`, `set_result_confirm`) -/

/-- The rows offered by `BotHandlers.set_result_start` (bot.py lines
443-476): `WHERE week = ? AND result IS NULL` (ordering by id affects only
the display order and is not modelled). -/
def set_result_match_list (ms : List MatchRow) (week : Nat) : List MatchRow :=
  ms.filter (fun m => m.week == week && m.result.isNone)

/-- The re-scoring sweep of `BotHandlers.set_result_confirm` (bot.py lines
594-650): every prediction row of the match gets its points overwritten
with `calculate_points` applied to its stored score/winner against the
newly confirmed result. -/
def rescore_sweep (tbl : List PredictionRow) (matchId : Nat)
    (result home away : String) : List PredictionRow :=
  tbl.map (fun p =>
    if p.match_id = matchId then
      { p with points := some (calculate_points p.score p.winner result home away) }
    else p)

/-! ### Prediction submission (`handle_winner`) -/

/-- SQLite `INSERT OR REPLACE` under `UNIQUE(user_id, match_id)`: delete
any conflicting row, then append the new one. -/
def insert_or_replace_prediction (tbl : List PredictionRow)
    (p : PredictionRow) : List PredictionRow :=
  (tbl.filter (fun q => !(q.user_id == p.user_id && q.match_id == p.match_id))) ++ [p]

/-- `BotHandlers.handle_winner`'s write (bot.py lines 366-398): the column
list omits `points`, so the stored row has `points = NULL`. -/
def submit_prediction (tbl : List PredictionRow) (user matchId week : Nat)
    (home away score winner : String) : List PredictionRow :=
  insert_or_replace_prediction tbl
    ⟨user, matchId, week, home, away, score, winner, none⟩

/-! ### Week cache (`get_cached_current_week`, `next_week`) and
persistence week accessor (`DatabaseManager.get_current_week`) -/

/-- The module-level `current_week_cache` dict. Timestamps are
`time.time()` values, modelled as integers. -/
structure WeekCache where
  value : Option Int
  timestamp : Int
deriving DecidableEq

def DEFAULT_TTL : Int := 300

/-- `BotHandlers.get_cached_current_week` (bot.py lines 50-59):
`storedWeek` is the value Persistence would return; the result pairs the
returned week with the cache after the call. -/
def get_cached_current_week (ttl_seconds now : Int) (cache : WeekCache)
    (storedWeek : Int) : Int × WeekCache :=
  match cache.value with
  | some v =>
    if now - cache.timestamp < ttl_seconds then (v, cache)
    else (storedWeek, ⟨some storedWeek, now⟩)
  | none => (storedWeek, ⟨some storedWeek, now⟩)

/-- `BotHandlers.next_week` (bot.py lines 336-352): read the (possibly
cached) current week, persist its successor, set the cache value to
`None`.  Returns the newly persisted week and the cache after the call. -/
def next_week (now : Int) (cache : WeekCache) (storedWeek : Int) :
    Int × WeekCache :=
  let r := get_cached_current_week DEFAULT_TTL now cache storedWeek
  (r.1 + 1, { r.2 with value := none })

/-- `DatabaseManager.get_current_week` (database.py lines 46-57): `none`
models an absent `PRAGMA user_version` row or a raised exception — both
take the `return 1` paths. -/
def get_current_week (readResult : Option Int) : Int :=
  match readResult with
  | some v => if v > 0 then v else 1
  | none => 1

/-! ### Helper lemmas on the string primitives -/

theorem splitOnChar_ne_nil (sep : Char) (l : List Char) :
    splitOnChar sep l ≠ [] := by
  cases l with
  | nil => simp [splitOnChar]
  | cons c cs =>
    unfold splitOnChar
    split <;> simp

theorem mem_of_splitOnChar_two (sep : Char) :
    ∀ (l : List Char) (x y : List Char) (rest : List (List Char)),
      splitOnChar sep l = x :: y :: rest → sep ∈ l := by
  intro l
  induction l with
  | nil => intro x y rest h; simp [splitOnChar] at h
  | cons c cs ih =>
    intro x y rest h
    by_cases hc : c = sep
    · subst hc; exact List.mem_cons_self _ _
    · rw [splitOnChar, if_neg hc] at h
      cases hcs : splitOnChar sep cs with
      | nil => exact absurd hcs (splitOnChar_ne_nil sep cs)
      | cons p ps =>
        rw [hcs] at h
        cases ps with
        | nil => simp at h
        | cons q qs =>
          exact List.mem_cons_of_mem _ (ih p q qs hcs)

theorem digit_ne_dash {c : Char} (h : c.isDigit = true) : c ≠ '-' := by
  intro hc; subst hc; exact absurd h (by decide)

theorem digit_ne_plus {c : Char} (h : c.isDigit = true) : c ≠ '+' := by
  intro hc; subst hc; exact absurd h (by decide)

/-- When the stripped text is a digit string, Python `int()` succeeds and
returns its decimal value. -/
theorem pyIntChars_of_isdigit (l : List Char)
    (h : isdigitChars (pyStrip l) = true) :
    pyIntChars l = some ((digitsToNat (pyStrip l) : Nat) : Int) := by
  cases hs : pyStrip l with
  | nil => rw [hs] at h; simp [isdigitChars] at h
  | cons c cs =>
    rw [hs] at h
    have hall : c.isDigit = true ∧ (∀ x ∈ cs, x.isDigit = true) := by
      simpa [isdigitChars] using h
    simp only [pyIntChars, hs, if_neg (digit_ne_dash hall.1),
      if_neg (digit_ne_plus hall.1), parseDigits, if_pos h]
    simp

/-- The validator accepts exactly the strings of length at most 7 that
split on `-` into two parts which strip to non-empty digit strings with
values at most 20. -/
theorem validate_score_iff (s : String) :
    validate_score s = true ↔
      (s.length ≤ MAX_SCORE_LENGTH ∧
        ∃ home away : List Char, splitOnChar '-' s.data = [home, away] ∧
          isdigitChars (pyStrip home) = true ∧ isdigitChars (pyStrip away) = true ∧
          digitsToNat (pyStrip home) ≤ 20 ∧ digitsToNat (pyStrip away) ≤ 20) := by
  constructor
  · intro hv
    unfold validate_score at hv
    split_ifs at hv with h1 h2
    refine ⟨by omega, ?_⟩
    split at hv
    next home away heq =>
      refine ⟨home, away, heq, ?_⟩
      split_ifs at hv with hd
      have hdig : isdigitChars (pyStrip home) = true ∧
          isdigitChars (pyStrip away) = true := by
        simpa using hd
      rw [pyIntChars_of_isdigit home hdig.1, pyIntChars_of_isdigit away hdig.2] at hv
      simp at hv
      refine ⟨hdig.1, hdig.2, ?_, ?_⟩ <;> omega
    next =>
      simp at hv
  · rintro ⟨hlen, home, away, hsp, hdh, hda, bh, ba⟩
    have hm : '-' ∈ s.data := mem_of_splitOnChar_two '-' s.data home away [] hsp
    unfold validate_score
    rw [if_neg (by omega), if_neg (not_not_intro hm)]
    simp only [hsp]
    rw [pyIntChars_of_isdigit home hdh, pyIntChars_of_isdigit away hda]
    simp only [hdh, hda, Bool.not_true, Bool.or_self, Bool.false_eq_true,
      if_false]
    rw [if_neg (by omega), if_neg (by omega)]

/-- A validated score string parses as a pair of naturals at most 20. -/
theorem parse_of_validate (s : String) (hv : validate_score s = true) :
    ∃ hg ag : Nat, parseScorePair s = some ((hg : Int), (ag : Int)) ∧
      hg ≤ 20 ∧ ag ≤ 20 := by
  obtain ⟨-, home, away, hsp, hdh, hda, bh, ba⟩ := (validate_score_iff s).mp hv
  refine ⟨digitsToNat (pyStrip home), digitsToNat (pyStrip away), ?_, bh, ba⟩
  simp only [parseScorePair, hsp, pyIntChars_of_isdigit home hdh,
    pyIntChars_of_isdigit away hda]

theorem validate_ne_empty (s : String) (hv : validate_score s = true) :
    s ≠ "" := by
  intro h
  subst h
  exact absurd hv (by decide)

/-- With both scores parsed and all inputs non-empty, the scoring engine
follows the four-rule cascade. -/
theorem calculate_points_eq_of_parse (ps pw as h a : String) (ph pa ah aa : Int)
    (hpse : ps ≠ "") (hase : as ≠ "") (hpw : pw ≠ "") (hh : h ≠ "") (ha : a ≠ "")
    (hp : parseScorePair ps = some (ph, pa))
    (hA : parseScorePair as = some (ah, aa)) :
    calculate_points ps pw as h a =
      (if ps = as then POINTS_FOR_EXACT_SCORE
       else if pw = (if ah = aa then drawMarker else if ah > aa then h else a) then
         POINTS_FOR_CORRECT_WINNER
       else if ph = ah ∨ pa = aa then POINTS_FOR_PARTIAL_SCORE
       else 0) := by
  unfold calculate_points
  rw [if_neg (by simp [hpse, hase, hpw, hh, ha])]
  by_cases heq : ps = as
  · simp [heq]
  · rw [if_neg heq, if_neg heq, hp, hA]

/-! ### Helper lemmas on the table operations -/

/-- Re-running the re-scoring sweep on its own output changes nothing:
the sweep reads only `score`, `winner` and `match_id`, which it never
writes. -/
theorem rescore_sweep_idem (tbl : List PredictionRow) (matchId : Nat)
    (result home away : String) :
    rescore_sweep (rescore_sweep tbl matchId result home away)
        matchId result home away =
      rescore_sweep tbl matchId result home away := by
  unfold rescore_sweep
  rw [List.map_map]
  apply List.map_congr_left
  intro p _
  by_cases hm : p.match_id = matchId
  · simp [Function.comp, hm]
  · simp [Function.comp, hm]

/-- Every prediction row of the match appears in the sweep output with its
points recomputed from the confirmed result. -/
theorem rescore_sweep_mem (tbl : List PredictionRow) (matchId : Nat)
    (result home away : String) (p : PredictionRow)
    (hp : p ∈ tbl) (hm : p.match_id = matchId) :
    { p with points := some (calculate_points p.score p.winner result home away) } ∈
      rescore_sweep tbl matchId result home away := by
  unfold rescore_sweep
  exact List.mem_map.mpr ⟨p, hp, by simp [hm]⟩

/-- At most one prediction row per `(user_id, match_id)` pair. -/
def UniqueUserMatch (tbl : List PredictionRow) : Prop :=
  tbl.Pairwise (fun p q => ¬ (p.user_id = q.user_id ∧ p.match_id = q.match_id))

theorem insert_or_replace_unique (tbl : List PredictionRow) (p : PredictionRow)
    (h : UniqueUserMatch tbl) :
    UniqueUserMatch (insert_or_replace_prediction tbl p) := by
  unfold UniqueUserMatch insert_or_replace_prediction
  apply List.pairwise_append.mpr
  refine ⟨h.sublist (List.filter_sublist _), List.pairwise_singleton _ _, ?_⟩
  intro x hx y hy
  rw [List.mem_singleton] at hy
  subst hy
  rw [List.mem_filter] at hx
  intro hxy
  simp only [Bool.not_eq_eq_eq_not, Bool.not_true, Bool.and_eq_false_imp,
    beq_iff_eq, beq_eq_false_iff_ne] at hx
  exact absurd hxy.2 (hx.2 hxy.1)

theorem foldl_submit_unique (tbl : List PredictionRow)
    (subs : List PredictionRow) (h : UniqueUserMatch tbl) :
    UniqueUserMatch (subs.foldl
      (fun t s => submit_prediction t s.user_id s.match_id s.week
        s.home_team s.away_team s.score s.winner) tbl) := by
  induction subs generalizing tbl with
  | nil => exact h
  | cons s rest ih =>
    exact ih _ (insert_or_replace_unique _ _ h)

/-- After two submissions for the same `(user, match)` pair, the rows for
that pair are exactly the second submission's row, with NULL points. -/
theorem two_submissions_one_row (tbl : List PredictionRow) (u mid : Nat)
    (w1 w2 : Nat) (h1 a1 s1 win1 h2 a2 s2 win2 : String) :
    ((submit_prediction (submit_prediction tbl u mid w1 h1 a1 s1 win1)
        u mid w2 h2 a2 s2 win2).filter
      (fun q => q.user_id == u && q.match_id == mid)) =
      [⟨u, mid, w2, h2, a2, s2, win2, none⟩] := by
  unfold submit_prediction insert_or_replace_prediction
  rw [List.filter_append, List.filter_filter]
  have hzero : ∀ l : List PredictionRow,
      (l.filter (fun q => (q.user_id == u && q.match_id == mid) &&
        !(q.user_id == u && q.match_id == mid))) = [] := by
    intro l
    apply List.filter_eq_nil_iff.mpr
    intro q _
    simp
  rw [hzero]
  simp

/-- `get_next_match` returns `none` exactly when no unpredicted match
remains. -/
theorem get_next_match_none_iff (ms : List MatchRow) (ps : List PredictionRow)
    (week user : Nat) :
    get_next_match ms ps week user = none ↔
      remainingCount ms ps week user = 0 := by
  unfold get_next_match remainingCount
  cases h : unpredictedMatches ms ps week user <;> simp [h]

theorem get_current_week_ge_one (r : Option Int) : 1 ≤ get_current_week r := by
  cases r <;> simp [get_current_week]
  split_ifs <;> omega

theorem get_cached_hit (ttl now : Int) (c : WeekCache) (v stored : Int)
    (hv : c.value = some v) (h : now - c.timestamp < ttl) :
    get_cached_current_week ttl now c stored = (v, c) := by
  simp [get_cached_current_week, hv, h]

theorem get_cached_refresh (ttl now : Int) (c : WeekCache) (stored : Int)
    (h : c.value = none ∨ ¬ now - c.timestamp < ttl) :
    get_cached_current_week ttl now c stored = (stored, ⟨some stored, now⟩) := by
  cases hv : c.value with
  | none => simp [get_cached_current_week, hv]
  | some v =>
    rcases h with h | h
    · rw [hv] at h; exact absurd h (by simp)
    · simp [get_cached_current_week, hv, h]

theorem next_week_cache_value_none (now : Int) (cache : WeekCache)
    (stored : Int) : (next_week now cache stored).2.value = none := by
  simp [next_week]

/-! ### Claims -/

/-- C1: `calculate_points` implements the first-matching-rule-wins scoring
cascade — for validated score strings and non-empty winner/team names it
returns EXACT (5) on an exact string match, else CORRECT_WINNER (3) when
the predicted winner equals the winner derived from the actual score (draw
marker on equal goals, otherwise the higher-scoring team's name), else
PARTIAL (1) when either goal count matches, else 0 — and it satisfies the
five test vectors of §8. -/
theorem claim_C1_calculate_points_algorithm :
    (∀ ps pw as h a : String,
      validate_score ps = true → validate_score as = true →
      pw ≠ "" → h ≠ "" → a ≠ "" →
      ∃ ph pa ah aa : Int,
        parseScorePair ps = some (ph, pa) ∧ parseScorePair as = some (ah, aa) ∧
        calculate_points ps pw as h a =
          (if ps = as then POINTS_FOR_EXACT_SCORE
           else if pw = (if ah = aa then drawMarker else if ah > aa then h else a) then
             POINTS_FOR_CORRECT_WINNER
           else if ph = ah ∨ pa = aa then POINTS_FOR_PARTIAL_SCORE
           else 0)) ∧
    calculate_points "2-1" "TeamA" "2-1" "TeamA" "TeamB" = 5 ∧
    calculate_points "2-1" "TeamA" "3-2" "TeamA" "TeamB" = 3 ∧
    calculate_points "2-1" "TeamA" "2-2" "TeamA" "TeamB" = 1 ∧
    calculate_points "0-1" "TeamB" "3-0" "TeamA" "TeamB" = 0 ∧
    calculate_points "1-1" "مساوی" "1-1" "TeamA" "TeamB" = 5 := by
  refine ⟨?_, by decide, by decide, by decide, by decide, by decide⟩
  intro ps pw as h a hps has hpw hh ha
  obtain ⟨ph, pa, hp, -, -⟩ := parse_of_validate ps hps
  obtain ⟨ah, aa, hA, -, -⟩ := parse_of_validate as has
  exact ⟨ph, pa, ah, aa, hp, hA,
    calculate_points_eq_of_parse ps pw as h a ph pa ah aa
      (validate_ne_empty ps hps) (validate_ne_empty as has) hpw hh ha hp hA⟩

/-- Witness for C1, instantiated at ("1-0", "TeamB", "2-2", "TeamA", "TeamB"). -/
theorem claim_C1_witness :
    ∃ ph pa ah aa : Int,
      parseScorePair "1-0" = some (ph, pa) ∧ parseScorePair "2-2" = some (ah, aa) ∧
      calculate_points "1-0" "TeamB" "2-2" "TeamA" "TeamB" =
        (if ("1-0" : String) = "2-2" then POINTS_FOR_EXACT_SCORE
         else if ("TeamB" : String) =
             (if ah = aa then drawMarker else if ah > aa then "TeamA" else "TeamB") then
           POINTS_FOR_CORRECT_WINNER
         else if ph = ah ∨ pa = aa then POINTS_FOR_PARTIAL_SCORE
         else 0) :=
  claim_C1_calculate_points_algorithm.1 "1-0" "TeamB" "2-2" "TeamA" "TeamB"
    (by decide) (by decide) (by decide) (by decide) (by decide)

/-- C2: `validate_score s` is `true` iff `s` has length at most 7, splits
on `-` into exactly two substrings whose whitespace-stripped forms are
non-empty digit strings with values at most 20; every other string gets
`false` (the function is total, so it never raises). -/
theorem claim_C2_validate_score_characterisation :
    (∀ s : String, validate_score s = true ↔
      (s.length ≤ MAX_SCORE_LENGTH ∧
        ∃ home away : List Char, splitOnChar '-' s.data = [home, away] ∧
          isdigitChars (pyStrip home) = true ∧ isdigitChars (pyStrip away) = true ∧
          digitsToNat (pyStrip home) ≤ 20 ∧ digitsToNat (pyStrip away) ≤ 20)) ∧
    validate_score "2-1" = true ∧
    validate_score "21-0" = false ∧
    validate_score "abc-1" = false ∧
    validate_score "2-1  " = true ∧
    validate_score "2-1     " = false :=
  ⟨validate_score_iff, by decide, by decide, by decide, by decide, by decide⟩

/-- Witness for C2: evaluating the characterisation at "2-1". -/
theorem claim_C2_witness :
    ("2-1" : String).length ≤ MAX_SCORE_LENGTH ∧
      ∃ home away : List Char, splitOnChar '-' ("2-1" : String).data = [home, away] ∧
        isdigitChars (pyStrip home) = true ∧ isdigitChars (pyStrip away) = true ∧
        digitsToNat (pyStrip home) ≤ 20 ∧ digitsToNat (pyStrip away) ≤ 20 :=
  (claim_C2_validate_score_characterisation.1 "2-1").mp (by decide)

/-- C3 counterexample: a current-week match whose result is already
recorded does NOT appear in the Result-Entry selection list — the entry
query filters on `result IS NULL`, so re-setting a result is unreachable
from this flow. -/
theorem claim_C3_counterexample :
    set_result_match_list
      [{ id := 1, week := 3, home_team := "TeamA", away_team := "TeamB",
         result := some "2-1" }] 3 = [] := by decide

/-- C3 (amended): the selection list offered at Result-Entry flow entry
contains exactly the current-week matches lacking a recorded result, so a
resolved match cannot be re-selected there; when a result is confirmed for
a selected match, every prediction row tied to it has its points
recomputed from the confirmed result. -/
theorem claim_C3_selection_and_sweep :
    (∀ (ms : List MatchRow) (w : Nat) (m : MatchRow),
      m ∈ set_result_match_list ms w ↔ m ∈ ms ∧ m.week = w ∧ m.result = none) ∧
    (∀ (tbl : List PredictionRow) (mid : Nat) (r h a : String)
        (p : PredictionRow), p ∈ tbl → p.match_id = mid →
      { p with points := some (calculate_points p.score p.winner r h a) } ∈
        rescore_sweep tbl mid r h a) := by
  constructor
  · intro ms w m
    simp [set_result_match_list, List.mem_filter, Option.isNone_iff_eq_none,
      and_assoc]
  · intro tbl mid r h a p hp hm
    exact rescore_sweep_mem tbl mid r h a p hp hm

/-- Witness for C3 (amended): an unresolved match is offered, and a stored
prediction gets re-scored by the sweep. -/
theorem claim_C3_witness :
    ((⟨1, 3, "TeamA", "TeamB", none⟩ : MatchRow) ∈
      set_result_match_list [⟨1, 3, "TeamA", "TeamB", none⟩] 3) ∧
    (({ user_id := 9, match_id := 1, week := 3, home_team := "TeamA",
        away_team := "TeamB", score := "2-1", winner := "TeamA",
        points := some (calculate_points "2-1" "TeamA" "2-1" "TeamA" "TeamB") } :
          PredictionRow) ∈
      rescore_sweep [⟨9, 1, 3, "TeamA", "TeamB", "2-1", "TeamA", none⟩]
        1 "2-1" "TeamA" "TeamB") :=
  ⟨(claim_C3_selection_and_sweep.1 [⟨1, 3, "TeamA", "TeamB", none⟩] 3
      ⟨1, 3, "TeamA", "TeamB", none⟩).mpr ⟨by decide, rfl, rfl⟩,
    claim_C3_selection_and_sweep.2
      [⟨9, 1, 3, "TeamA", "TeamB", "2-1", "TeamA", none⟩] 1 "2-1" "TeamA" "TeamB"
      ⟨9, 1, 3, "TeamA", "TeamB", "2-1", "TeamA", none⟩ (by decide) rfl⟩

/-- C4 counterexample: when the current week contains no matches at all,
`_handle_no_matches` still sends the "all matches predicted"
congratulation — the very same reply as the genuinely-all-predicted case —
so the empty week does not get a distinct "no matches exist" message. -/
theorem claim_C4_counterexample :
    handle_no_matches ([] : List MatchRow) ([] : List PredictionRow) 1 42 =
        NoMatchesReply.allPredicted 1 ∧
    (([] : List MatchRow).filter (fun m => m.week == 1)) = [] ∧
    handle_no_matches [⟨5, 1, "TeamA", "TeamB", none⟩]
        [⟨42, 5, 1, "TeamA", "TeamB", "1-0", "TeamA", none⟩] 1 42 =
      NoMatchesReply.allPredicted 1 :=
  ⟨by decide, by decide, by decide⟩

/-- C4 (amended): at prediction-flow entry with no unpredicted match left,
the handler re-counts the remaining matches and sends the "all predicted"
congratulation exactly when the recount is zero — which covers both the
all-predicted case and the empty-week case — and a generic support-error
reply exactly when the recount is non-zero; no distinct "no matches exist
for this week" message is produced. -/
theorem claim_C4_no_matches_messages :
    ∀ (ms : List MatchRow) (ps : List PredictionRow) (w u : Nat),
      (get_next_match ms ps w u = none ↔ remainingCount ms ps w u = 0) ∧
      (handle_no_matches ms ps w u = .allPredicted w ↔
        remainingCount ms ps w u = 0) ∧
      (handle_no_matches ms ps w u = .lookupError w ↔
        remainingCount ms ps w u ≠ 0) := by
  intro ms ps w u
  refine ⟨get_next_match_none_iff ms ps w u, ?_, ?_⟩
  · unfold handle_no_matches
    split_ifs with h <;> simp [h]
  · unfold handle_no_matches
    split_ifs with h <;> simp [h]

/-- Witness for C4 (amended) on a concrete empty week. -/
theorem claim_C4_witness :
    handle_no_matches ([] : List MatchRow) ([] : List PredictionRow) 2 7 =
      NoMatchesReply.allPredicted 2 :=
  ((claim_C4_no_matches_messages [] [] 2 7).2.1).mpr (by decide)

/-- C5: `calculate_points` is deterministic — equal inputs give equal
outputs — and the re-scoring sweep is idempotent: running it again over
its own output (same confirmed result, same stored predictions) assigns
the identical point values. -/
theorem claim_C5_deterministic_idempotent :
    (∀ ps pw as h a : String,
      calculate_points ps pw as h a = calculate_points ps pw as h a) ∧
    (∀ (tbl : List PredictionRow) (mid : Nat) (r h a : String),
      rescore_sweep (rescore_sweep tbl mid r h a) mid r h a =
        rescore_sweep tbl mid r h a) :=
  ⟨fun _ _ _ _ _ => rfl, rescore_sweep_idem⟩

/-- C6: the scoring engine is total and never propagates an error — any
empty argument yields 0, a parse failure on either score (when the
exact-match check did not already fire) yields 0, and every output is one
of the four point constants. -/
theorem claim_C6_total_degrades_to_zero :
    (∀ ps pw as h a : String,
      (ps = "" ∨ pw = "" ∨ as = "" ∨ h = "" ∨ a = "") →
      calculate_points ps pw as h a = 0) ∧
    (∀ ps pw as h a : String, ps ≠ as →
      (parseScorePair ps = none ∨ parseScorePair as = none) →
      calculate_points ps pw as h a = 0) ∧
    (∀ ps pw as h a : String,
      calculate_points ps pw as h a = 0 ∨
      calculate_points ps pw as h a = POINTS_FOR_PARTIAL_SCORE ∨
      calculate_points ps pw as h a = POINTS_FOR_CORRECT_WINNER ∨
      calculate_points ps pw as h a = POINTS_FOR_EXACT_SCORE) := by
  refine ⟨?_, ?_, ?_⟩
  · intro ps pw as h a he
    unfold calculate_points
    rw [if_pos he]
  · intro ps pw as h a hne hparse
    unfold calculate_points
    split_ifs with h1
    · rfl
    · rcases hparse with hp | hp
      · rw [hp]
      · rw [hp]
        cases hP : parseScorePair ps with
        | none => rfl
        | some v => obtain ⟨x, y⟩ := v; rfl
  · intro ps pw as h a
    unfold calculate_points
    split_ifs with h1 h2
    · exact Or.inl rfl
    · exact Or.inr (Or.inr (Or.inr rfl))
    · cases hP : parseScorePair ps with
      | none =>
        cases hA : parseScorePair as with
        | none => exact Or.inl rfl
        | some v => obtain ⟨x, y⟩ := v; exact Or.inl rfl
      | some v =>
        obtain ⟨ph, pa⟩ := v
        cases hA : parseScorePair as with
        | none => exact Or.inl rfl
        | some w =>
          obtain ⟨ah, aa⟩ := w
          dsimp only
          split_ifs <;> tauto

/-- Witness for C6: a malformed stored score degrades to zero points. -/
theorem claim_C6_witness :
    (("abc" : String) ≠ "1-1" ∧ parseScorePair "abc" = none) ∧
    calculate_points "abc" "TeamA" "1-1" "TeamA" "TeamB" = 0 :=
  ⟨⟨by decide, by decide⟩,
    claim_C6_total_degrades_to_zero.2.1 "abc" "TeamA" "1-1" "TeamA" "TeamB"
      (by decide) (Or.inl (by decide))⟩

/-- C7: within the TTL window the cached week is returned and the
persisted value is not consulted (the result does not depend on it and the
cache is unchanged); on a miss or after expiry the persisted week is
re-read and stored with the read timestamp; and the week-advance action
clears the cached value, so the very next read — at any time, under any
TTL — returns the newly persisted week. -/
theorem claim_C7_week_cache :
    (∀ ttl now ts v stored : Int, now - ts < ttl →
      get_cached_current_week ttl now ⟨some v, ts⟩ stored = (v, ⟨some v, ts⟩)) ∧
    (∀ ttl now ts v stored : Int, ¬ now - ts < ttl →
      get_cached_current_week ttl now ⟨some v, ts⟩ stored =
        (stored, ⟨some stored, now⟩)) ∧
    (∀ (ttl now : Int) (cache : WeekCache) (stored : Int), cache.value = none →
      get_cached_current_week ttl now cache stored = (stored, ⟨some stored, now⟩)) ∧
    (∀ (ttl now now' : Int) (cache : WeekCache) (stored : Int),
      get_cached_current_week ttl now' (next_week now cache stored).2
          ((next_week now cache stored).1) =
        ((next_week now cache stored).1,
          ⟨some ((next_week now cache stored).1), now'⟩)) := by
  refine ⟨?_, ?_, ?_, ?_⟩
  · intro ttl now ts v stored h
    exact get_cached_hit ttl now ⟨some v, ts⟩ v stored rfl h
  · intro ttl now ts v stored h
    exact get_cached_refresh ttl now ⟨some v, ts⟩ stored (Or.inr h)
  · intro ttl now cache stored h
    exact get_cached_refresh ttl now cache stored (Or.inl h)
  · intro ttl now now' cache stored
    exact get_cached_refresh ttl now' _ _
      (Or.inl (next_week_cache_value_none now cache stored))

/-- Witness for C7: a fresh cache entry is served back within the TTL. -/
theorem claim_C7_witness :
    ((10 : Int) - 0 < 300 ∧
      get_cached_current_week 300 10 ⟨some 4, 0⟩ 9 = (4, ⟨some 4, 0⟩)) ∧
    (¬ (400 : Int) - 0 < 300 ∧
      get_cached_current_week 300 400 ⟨some 4, 0⟩ 9 = (9, ⟨some 9, 400⟩)) :=
  ⟨⟨by decide, claim_C7_week_cache.1 300 10 0 4 9 (by decide)⟩,
    ⟨by decide, claim_C7_week_cache.2.1 300 400 0 4 9 (by decide)⟩⟩

/-- C8: the `INSERT OR REPLACE` submission preserves the at-most-one-row-
per-(user, match) invariant across any sequence of completed submissions,
and after two submissions by the same user for the same match exactly the
second submission's row remains for that pair, with NULL points. -/
theorem claim_C8_prediction_uniqueness :
    (∀ (tbl subs : List PredictionRow), UniqueUserMatch tbl →
      UniqueUserMatch (subs.foldl
        (fun t s => submit_prediction t s.user_id s.match_id s.week
          s.home_team s.away_team s.score s.winner) tbl)) ∧
    (∀ (tbl : List PredictionRow) (u mid w1 w2 : Nat)
        (h1 a1 s1 win1 h2 a2 s2 win2 : String),
      ((submit_prediction (submit_prediction tbl u mid w1 h1 a1 s1 win1)
          u mid w2 h2 a2 s2 win2).filter
        (fun q => q.user_id == u && q.match_id == mid)) =
        [⟨u, mid, w2, h2, a2, s2, win2, none⟩]) :=
  ⟨foldl_submit_unique, two_submissions_one_row⟩

/-- Witness for C8: a concrete submission sequence keeps the invariant. -/
theorem claim_C8_witness :
    UniqueUserMatch
      (([⟨7, 1, 1, "TeamA", "TeamB", "2-1", "TeamA", none⟩,
         ⟨7, 1, 1, "TeamA", "TeamB", "0-0", "مساوی", none⟩] :
            List PredictionRow).foldl
        (fun t s => submit_prediction t s.user_id s.match_id s.week
          s.home_team s.away_team s.score s.winner) []) :=
  claim_C8_prediction_uniqueness.1 []
    ([⟨7, 1, 1, "TeamA", "TeamB", "2-1", "TeamA", none⟩,
      ⟨7, 1, 1, "TeamA", "TeamB", "0-0", "مساوی", none⟩] : List PredictionRow)
    List.Pairwise.nil

/-- C9: `get_current_week` is total and always returns a week of at least
1 — the stored value when it is positive, and 1 when the stored value is
non-positive or the read fails — and the cached accessor therefore never
yields a week below 1 (so the `None` current-week branch at
prediction-flow entry is unreachable). -/
theorem claim_C9_current_week_ge_one :
    (∀ r : Option Int, 1 ≤ get_current_week r) ∧
    (∀ v : Int, 0 < v → get_current_week (some v) = v) ∧
    (∀ v : Int, v ≤ 0 → get_current_week (some v) = 1) ∧
    get_current_week none = 1 ∧
    (∀ (ttl now : Int) (cache : WeekCache) (r : Option Int),
      (∀ v, cache.value = some v → 1 ≤ v) →
      1 ≤ (get_cached_current_week ttl now cache (get_current_week r)).1) := by
  refine ⟨get_current_week_ge_one, ?_, ?_, rfl, ?_⟩
  · intro v hv
    simp [get_current_week, hv]
  · intro v hv
    simp only [get_current_week]
    rw [if_neg (by omega)]
  · intro ttl now cache r hc
    cases hcv : cache.value with
    | none =>
      rw [get_cached_refresh ttl now cache _ (Or.inl hcv)]
      exact get_current_week_ge_one r
    | some v =>
      by_cases h : now - cache.timestamp < ttl
      · rw [get_cached_hit ttl now cache v _ hcv h]
        exact hc v hcv
      · rw [get_cached_refresh ttl now cache _ (Or.inr h)]
        exact get_current_week_ge_one r

/-- Witness for C9 at a concrete stored value. -/
theorem claim_C9_witness :
    ((0 : Int) < 5 ∧ get_current_week (some 5) = 5) ∧
    ((-3 : Int) ≤ 0 ∧ get_current_week (some (-3)) = 1) :=
  ⟨⟨by decide, claim_C9_current_week_ge_one.2.1 5 (by decide)⟩,
    ⟨by decide, claim_C9_current_week_ge_one.2.2.1 (-3) (by decide)⟩⟩

/-- C10: for every valid stored score, both the prediction-flow and the
admin result-entry winner prompts offer exactly the home and away team
names, with the draw marker inserted between them iff the parsed goal
counts are equal. -/
theorem claim_C10_winner_choice_set :
    ∀ (score home away : String), validate_score score = true →
      ∃ hg ag : Int, parseScorePair score = some (hg, ag) ∧
        prompt_for_winner_choices score home away =
          some (if hg = ag then [home, drawMarker, away] else [home, away]) ∧
        set_result_prompt_winner_choices score home away =
          some (if hg = ag then [home, drawMarker, away] else [home, away]) := by
  intro score home away hv
  obtain ⟨hg, ag, hp, -, -⟩ := parse_of_validate score hv
  refine ⟨(hg : Int), (ag : Int), hp, ?_, ?_⟩ <;>
    simp [prompt_for_winner_choices, set_result_prompt_winner_choices, hp]

/-- Witness for C10 at the draw score "1-1". -/
theorem claim_C10_witness :
    ∃ hg ag : Int, parseScorePair "1-1" = some (hg, ag) ∧
      prompt_for_winner_choices "1-1" "TeamA" "TeamB" =
        some (if hg = ag then ["TeamA", drawMarker, "TeamB"]
          else ["TeamA", "TeamB"]) ∧
      set_result_prompt_winner_choices "1-1" "TeamA" "TeamB" =
        some (if hg = ag then ["TeamA", drawMarker, "TeamB"]
          else ["TeamA", "TeamB"]) :=
  claim_C10_winner_choice_set "1-1" "TeamA" "TeamB" (by decide)
